import Mathlib

/-!
Shallow embedding of src/linkedin-scraper.ts (class LinkedInScraper).

Browser effects are modelled as explicit state (ScraperState) plus an event
trace (List Event). Oracles (functions out of Nat) supply the outcomes of
live-page reads that the real code obtains from the browser: per-cycle
convergence results, per-cycle extraction batches, per-poll rendered counts.
Fallible operations return Except ScrapeError. A JS number that can be NaN
is modelled as Option Int (none = NaN). Loops that iterate over live page
state take a fuel argument; running out of fuel is the modelling artefact
ScrapeError.fuelOut standing for non-termination.
-/

namespace LinkedInScraper

/-- Error values thrown by the scraper. The source throws plain Error
objects with distinct messages; each constructor corresponds to one throw
site (or to a rejected browser call). -/
inductive ScrapeError where
  /-- thrown at the top of searchJobs: "Scraper not initialized" -/
  | notInitialized
  /-- thrown at the top of paginate and of the loadJobs closure: "Failed to load page" -/
  | pageUnavailable
  /-- thrown in initialize when the login check fires: "Authentication failed" -/
  | authenticationFailed
  /-- a rejected page.screenshot call inside takeScreenshot -/
  | screenshotFailed
  /-- modelling artefact: the embedded loop ran out of fuel (non-termination) -/
  | fuelOut
  deriving DecidableEq

/-- Observable browser-side effects, recorded as a trace. -/
inductive Event where
  | navigate (url : String)
  | screenshot (label : String)
  | loadJobs
  | extract
  | paginate
  | closeBrowser
  deriving DecidableEq

/-- The page handle: its URL is modelled as a base plus the value of the
"start" query parameter (the only parameter the code manipulates). -/
structure PageState where
  base : String
  startParam : Option String
  deriving DecidableEq

/-- The mutable fields of the LinkedInScraper instance:
`_page : Page | null` and `_screenshotCount` (starts at 1). -/
structure ScraperState where
  page : Option PageState
  screenshotCount : Nat
  deriving DecidableEq

/-- Result object of the loadJobs closure:
`{ success: true as boolean, totalJobs: count }`. -/
structure LoadResult where
  success : Bool
  totalJobs : Nat
  deriving DecidableEq

/-- Modelled from the spec: src/constants.ts (LI_URLS) is not under src/;
the spec describes only "a known home URL" (section 4.3). -/
def liHome : String := "linkedin-home"

/-- Modelled from the spec: src/constants.ts (LI_URLS) is not under src/;
the jobs-search base URL of searchJobs. -/
def liJobsSearch : String := "linkedin-jobs-search"

/-- JS StrWhiteSpace characters skipped by parseInt (the common ones). -/
def jsWhitespace (c : Char) : Bool :=
  c == ' ' || c == '\t' || c == '\n' || c == '\r' || c == '\x0b' || c == '\x0c'

/-- Value of the longest digit run at the head of the character list;
none when it is empty (parseInt would give NaN). -/
def digitsValue (cs : List Char) : Option Nat :=
  let ds := cs.takeWhile Char.isDigit
  if ds.isEmpty then none
  else some (ds.foldl (fun a c => a * 10 + (c.toNat - 48)) 0)

/-- JS parseInt(s, 10): skip whitespace, optional sign, longest decimal
digit run; NaN (here: none) when no digit follows. -/
def jsParseInt (s : String) : Option Int :=
  let cs := s.data.dropWhile jsWhitespace
  match cs with
  | '-' :: rest => (digitsValue rest).map (fun n => -(n : Int))
  | '+' :: rest => (digitsValue rest).map (fun n => (n : Int))
  | _ => (digitsValue cs).map (fun n => (n : Int))

/-- The new "start" value written by paginate, lines 31-33 of the source:
`parseInt(url.searchParams.get("start") || "0", 10)` then
`start := offset + paginationSize` stringified. The JS or-fallback fires
for an absent parameter (null) and for the empty string (both falsy);
a NaN offset propagates through the addition and prints as "NaN". -/
def paginateStart (startParam : Option String) (paginationSize : Int) : String :=
  let raw := match startParam with
    | none => "0"
    | some s => if s = "" then "0" else s
  match jsParseInt raw with
  | none => "NaN"
  | some offset => toString (offset + paginationSize)

/-- paginate (source lines 26-38): throws when no page is active,
otherwise rewrites the "start" parameter and navigates. -/
def paginateStep (st : ScraperState) (paginationSize : Int) :
    Except ScrapeError PageState :=
  match st.page with
  | none => .error .pageUnavailable
  | some p => .ok { p with startParam := some (paginateStart p.startParam paginationSize) }

/-- takeScreenshot (source lines 10-17): `await this._page?.screenshot(...)`
then increment the counter. With a null page the optional chain
short-circuits and only the counter moves; with a live page the awaited
screenshot call may reject (shotOk = false), in which case the error
propagates and the counter is not incremented. -/
def takeScreenshotE (shotOk : Bool) (st : ScraperState) :
    Except ScrapeError ScraperState :=
  match st.page with
  | none => .ok { st with screenshotCount := st.screenshotCount + 1 }
  | some _ =>
    if shotOk then .ok { st with screenshotCount := st.screenshotCount + 1 }
    else .error .screenshotFailed

/-- Environment of one initialize call: whether the logged-in marker
element (SELECTORS.activeMenu) would be visible on the home page —
i.e. whether the supplied li_at cookie is a valid session — and whether
the diagnostic screenshot write succeeds. -/
structure InitEnv where
  loggedInVisible : Bool
  shotOk : Bool
  deriving DecidableEq

/-- The value the promise of isLoggedIn (source lines 19-24) resolves to:
visibility of the first activeMenu element. -/
def isLoggedInResolved (env : InitEnv) : Bool := env.loggedInVisible

/-- Source line 62 reads `if (!this._isLoggedIn())` WITHOUT awaiting the
async call: the operand of the negation is the Promise object itself, an
object is always truthy in JS, so the negation is false regardless of the
boolean the promise would resolve to. -/
def notOfUnawaitedPromise (_resolved : Bool) : Bool := false

/-- initialize (source lines 40-71): launch browser, new context, inject
the li_at cookie, open a page, navigate home, run the (broken, see
notOfUnawaitedPromise) login check, screenshot. Returns the event trace
and the new state or the thrown error. -/
def initSession (env : InitEnv) (st : ScraperState) :
    List Event × Except ScrapeError ScraperState :=
  let stPage : ScraperState :=
    { page := some { base := liHome, startParam := none },
      screenshotCount := st.screenshotCount }
  if notOfUnawaitedPromise (isLoggedInResolved env) then
    match takeScreenshotE env.shotOk stPage with
    | .error e => ([.navigate liHome], .error e)
    | .ok _ => ([.navigate liHome, .screenshot "Authentication failed"],
        .error .authenticationFailed)
  else
    match takeScreenshotE env.shotOk stPage with
    | .error e => ([.navigate liHome], .error e)
    | .ok st2 => ([.navigate liHome, .screenshot "Home page"], .ok st2)

/-- The scroll-and-poll convergence loop of the loadJobs closure (source
lines 97-109). counts i is the rendered list size seen by the i-th read
of `locator(SELECTORS.jobs).count()` (counts 0 is the read before the
loop); each iteration scrolls the last item into view, waits 200ms,
re-reads the count, and exits when it matches the previous one. -/
def loadLoop (counts : Nat → Nat) : Nat → Nat → Option Nat
  | 0, _ => none
  | fuel + 1, i =>
    if counts (i + 1) = counts i then some (counts i)
    else loadLoop counts fuel (i + 1)

/-- One attempt of the loadJobs closure (source lines 75-112): after the
best-effort skeleton waits (which do not affect the counts), read the
count and the last-item locator, run the convergence loop, and return
`{ success: true, totalJobs: count }`. none models an attempt that never
converged / threw. -/
def loadJobsAttempt (counts : Nat → Nat) (fuel : Nat) : Option LoadResult :=
  (loadLoop counts fuel 0).map (fun c => { success := true, totalJobs := c })

/-- Configuration value passed to retry by loadJobs (source lines 113-117). -/
structure RetryConfig where
  maxAttempts : Nat
  delayMs : Nat
  timeout : Nat
  deriving DecidableEq

/-- Attempt loop of retry: run op on attempt indices k, k+1, ... for n
attempts, returning the first success; none models surfacing the last
failure (RetryExhausted) after exhaustion. -/
def retryRun {α : Type} (op : Nat → Option α) : Nat → Nat → Option α
  | 0, _ => none
  | n + 1, k =>
    match op k with
    | some v => some v
    | none => retryRun op n (k + 1)

/-- Modelled from the spec: `retry` from src/utils.ts is not under src/.
Section 4.1: runs the operation up to maxAttempts times, waiting delayMs
between attempts, the whole call bounded by the timeout; exhausting the
attempts surfaces the failure. delayMs and timeout are wall-clock
quantities and appear in this model only as configuration data. -/
def retry {α : Type} (op : Nat → Option α) (cfg : RetryConfig) : Option α :=
  retryRun op cfg.maxAttempts 0

/-- The literal config object at source lines 113-117. -/
def loadJobsRetryConfig : RetryConfig :=
  { maxAttempts := 3, delayMs := 300, timeout := 30000 }

/-- loadJobs (source lines 73-119): the whole closure wrapped by retry
with loadJobsRetryConfig. counts a is the fresh poll sequence the a-th
attempt would observe: every attempt re-runs loadJobsAttempt from poll
index 0, carrying no state from a failed attempt. -/
def loadJobs (counts : Nat → Nat → Nat) (fuel : Nat) : Option LoadResult :=
  retry (fun attempt => loadJobsAttempt (counts attempt) fuel) loadJobsRetryConfig

/-- Minimal model of JS encodeURIComponent (exact for ASCII input):
alphanumerics and the unreserved marks pass through, everything else is
percent-encoded from its code point. -/
def isUnreservedURIChar (c : Char) : Bool :=
  c.isAlphanum || c == '-' || c == '_' || c == '.' || c == '!' ||
    c == '~' || c == '*' || c == '\'' || c == '(' || c == ')'

/-- Upper-case hexadecimal digit for n < 16. -/
def hexDigit (n : Nat) : Char :=
  if n < 10 then Char.ofNat (48 + n) else Char.ofNat (55 + n)

/-- Percent-encode one character from its code point. -/
def percentEncodeChar (c : Char) : List Char :=
  ['%', hexDigit (c.toNat / 16 % 16), hexDigit (c.toNat % 16)]

/-- encodeURIComponent over a string. -/
def encodeURIComponent (s : String) : String :=
  String.mk (s.data.foldr
    (fun c acc => if isUnreservedURIChar c then c :: acc else percentEncodeChar c ++ acc)
    [])

/-- The search URL built at source line 124. -/
def searchUrl (keywords location : String) : String :=
  liJobsSearch ++ "?keywords=" ++ encodeURIComponent keywords ++
    "&location=" ++ encodeURIComponent location

/-- The while loop of searchJobs (source lines 132-151). loads i gives the
(success, totalJobs) pair the i-th loadJobs call resolves to (per spec
section 4.5 step 3a, a failed convergence pass reports success = false);
extracts i is the record batch of the i-th extractJobCardsData call;
shotOk tells whether diagnostic screenshot writes succeed. Returns the
event trace and, on normal completion, the value the function body
produces: some [] for the early `return []`, none for falling out of the
loop (the source returns undefined there — no record list is returned). -/
def searchLoop (loads : Nat → Bool × Nat) (extracts : Nat → List Nat)
    (shotOk : Bool) (limit : Int) :
    Nat → Nat → Nat → List Event × Except ScrapeError (Option (List Nat))
  | 0, _, _ => ([], .error .fuelOut)
  | fuel + 1, processed, i =>
    if (processed : Int) < limit then
      if (loads i).1 then
        let processed2 := processed + (extracts i).length
        if limit ≤ (processed2 : Int) then
          if shotOk then
            ([.loadJobs, .extract, .screenshot "Job limit reached"], .ok none)
          else ([.loadJobs, .extract], .error .screenshotFailed)
        else
          let r := searchLoop loads extracts shotOk limit fuel processed2 (i + 1)
          (.loadJobs :: .extract :: .paginate :: r.1, r.2)
      else
        if shotOk then
          ([.loadJobs, .screenshot "No jobs found"], .ok (some []))
        else ([.loadJobs], .error .screenshotFailed)
    else ([], .ok none)

/-- searchJobs (source lines 121-153): fail fast when no page exists,
else navigate to the search URL, screenshot, and run the quota loop. -/
def searchJobs (shotOk : Bool) (loads : Nat → Bool × Nat)
    (extracts : Nat → List Nat) (st : ScraperState)
    (keywords location : String) (limit : Int) (fuel : Nat) :
    List Event × Except ScrapeError (Option (List Nat)) :=
  match st.page with
  | none => ([], .error .notInitialized)
  | some _ =>
    if shotOk then
      let r := searchLoop loads extracts shotOk limit fuel 0 0
      (.navigate (searchUrl keywords location) :: .screenshot "Search jobs page" :: r.1,
        r.2)
    else ([.navigate (searchUrl keywords location)], .error .screenshotFailed)

/-- close (source lines 155-160): with a null page a no-op, otherwise
release the browser (the optional chain on browser() absorbs a null
browser) and null the page field. No path throws. -/
def close (st : ScraperState) : List Event × ScraperState :=
  match st.page with
  | none => ([], st)
  | some _ => ([.closeBrowser], { st with page := none })

/-!
## Theorems settling the claims
-/

/-- C1 (code_bug): the source's own authentication check is dead. The
condition at line 62 negates an un-awaited Promise, so for every
environment — in particular one where the logged-in marker is not visible,
i.e. an invalid cookie — initialize never produces AuthenticationFailed,
and (when the diagnostic write succeeds) completes as a silent success,
contradicting the claim that it always fails with AuthenticationFailed. -/
theorem initSession_invalid_cookie_silently_succeeds
    (env : InitEnv) (st : ScraperState)
    (_hcookie : env.loggedInVisible = false) (hshot : env.shotOk = true) :
    (initSession env st).2 ≠ .error .authenticationFailed ∧
    ∃ st2, (initSession env st).2 = .ok st2 := by
  unfold initSession
  simp [notOfUnawaitedPromise, takeScreenshotE, hshot]

/-- Witness for C1's theorem at a concrete invalid-cookie environment. -/
theorem initSession_invalid_cookie_silently_succeeds_witness :
    (initSession ⟨false, true⟩ ⟨none, 1⟩).2 ≠ .error .authenticationFailed ∧
    ∃ st2, (initSession ⟨false, true⟩ ⟨none, 1⟩).2 = .ok st2 :=
  initSession_invalid_cookie_silently_succeeds ⟨false, true⟩ ⟨none, 1⟩ rfl rfl

/-- C3 (counterexample): a present but unparsable "start" parameter is not
treated as 0 — parseInt yields NaN, NaN + 25 is NaN, and the rewritten
URL carries start=NaN, not start=25 as the claim states. -/
theorem paginate_malformed_start_counterexample :
    paginateStart (some "abc") 25 = "NaN" ∧
    paginateStart (some "abc") 25 ≠ "25" := by
  refine ⟨rfl, ?_⟩
  decide

/-- C3 (amended): advancing with the default page size maps start=0 to
start=25 and start=25 to start=50; an absent or empty start parameter is
treated as 0 (yielding start=25); but a start parameter that parseInt
cannot parse at all yields start=NaN. -/
theorem paginate_start_mapping_amended :
    paginateStart (some "0") 25 = "25" ∧
    paginateStart (some "25") 25 = "50" ∧
    paginateStart none 25 = "25" ∧
    paginateStart (some "") 25 = "25" ∧
    (∀ s : String, s ≠ "" → jsParseInt s = none → paginateStart (some s) 25 = "NaN") := by
  refine ⟨rfl, rfl, rfl, rfl, ?_⟩
  intro s hs hparse
  unfold paginateStart
  simp [hs, hparse]

/-- Witness for C3's amended theorem at the concrete malformed input "x-". -/
theorem paginate_start_mapping_amended_witness :
    paginateStart (some "x-") 25 = "NaN" :=
  paginate_start_mapping_amended.2.2.2.2 "x-" (by decide) (by decide)

/-- C6 (confirmed): searchJobs called before initialize (page handle null)
fails with NotInitialized and produces an empty event trace — no
navigation, no extraction, no diagnostic capture — for every oracle,
argument list and fuel; the model is total, so no null dereference. -/
theorem searchJobs_not_initialized (shotOk : Bool) (loads : Nat → Bool × Nat)
    (extracts : Nat → List Nat) (st : ScraperState) (kw loc : String)
    (limit : Int) (fuel : Nat) (h : st.page = none) :
    searchJobs shotOk loads extracts st kw loc limit fuel =
      ([], .error .notInitialized) := by
  unfold searchJobs
  rw [h]

/-- Witness for C6's theorem at a concrete uninitialized state. -/
theorem searchJobs_not_initialized_witness :
    searchJobs true (fun _ => (true, 0)) (fun _ => []) ⟨none, 1⟩ "kw" "loc" 25 5 =
      ([], .error .notInitialized) :=
  searchJobs_not_initialized true (fun _ => (true, 0)) (fun _ => []) ⟨none, 1⟩
    "kw" "loc" 25 5 rfl

/-- C7 (confirmed): close never errors (its type is total over every
state): before initialize it is a no-op on the state, after initialize it
releases the browser and nulls the page, and a repeated call on the
resulting state is an idempotent no-op. -/
theorem close_idempotent_no_error (st : ScraperState) :
    (st.page = none → close st = ([], st)) ∧
    (∀ p, st.page = some p → close st = ([.closeBrowser], { st with page := none })) ∧
    close (close st).2 = ([], (close st).2) := by
  rcases h : st.page with _ | p <;> simp [close, h]

/-- Witness for C7's theorem: a concrete initialized state is closed once
(releasing the browser) and closing before initialize is a no-op. -/
theorem close_idempotent_no_error_witness :
    close (⟨some ⟨"u", none⟩, 1⟩ : ScraperState) = ([.closeBrowser], ⟨none, 1⟩) ∧
    close (⟨none, 1⟩ : ScraperState) = ([], ⟨none, 1⟩) :=
  ⟨(close_idempotent_no_error ⟨some ⟨"u", none⟩, 1⟩).2.1 ⟨"u", none⟩ rfl,
    (close_idempotent_no_error ⟨none, 1⟩).1 rfl⟩

/-- C9 (counterexample): the same search run, same oracles, same state —
with the diagnostic capture succeeding searchJobs completes (here with the
early-empty return), with the capture failing it fails with the
screenshot error: the capture failure is not swallowed and changes the
orchestration outcome, refuting the claim. -/
theorem screenshot_failure_changes_outcome_counterexample :
    (searchJobs true (fun _ => (false, 0)) (fun _ => [])
        ⟨some ⟨"home", none⟩, 1⟩ "kw" "loc" 25 3).2 = .ok (some []) ∧
    (searchJobs false (fun _ => (false, 0)) (fun _ => [])
        ⟨some ⟨"home", none⟩, 1⟩ "kw" "loc" 25 3).2 = .error .screenshotFailed := by
  constructor <;> rfl

/-- C9 (amended): a failure of the diagnostic capture is not swallowed —
takeScreenshot awaits page.screenshot with no try/catch, so the rejection
propagates: on an initialized state searchJobs fails with the screenshot
error (at its first capture), and initialize does likewise whenever its
screenshot write fails. -/
theorem screenshot_failure_propagates (loads : Nat → Bool × Nat)
    (extracts : Nat → List Nat) (st : ScraperState) (p : PageState)
    (kw loc : String) (limit : Int) (fuel : Nat) (hp : st.page = some p) :
    (searchJobs false loads extracts st kw loc limit fuel).2 =
      .error .screenshotFailed ∧
    ∀ v : Bool, ∀ st0 : ScraperState,
      (initSession ⟨v, false⟩ st0).2 = .error .screenshotFailed := by
  constructor
  · simp [searchJobs, hp]
  · intro v st0
    simp [initSession, notOfUnawaitedPromise, takeScreenshotE]

/-- Witness for C9's amended theorem at a concrete initialized state. -/
theorem screenshot_failure_propagates_witness :
    (searchJobs false (fun _ => (true, 0)) (fun _ => [])
        ⟨some ⟨"home", none⟩, 1⟩ "kw" "loc" 25 3).2 = .error .screenshotFailed ∧
    ∀ v : Bool, ∀ st0 : ScraperState,
      (initSession ⟨v, false⟩ st0).2 = .error .screenshotFailed :=
  screenshot_failure_propagates (fun _ => (true, 0)) (fun _ => [])
    ⟨some ⟨"home", none⟩, 1⟩ ⟨"home", none⟩ "kw" "loc" 25 3 rfl

/-- C10 (confirmed): on an initialized session with a non-positive limit,
searchJobs navigates to the search URL and takes exactly one diagnostic
capture, but the quota loop body never runs: no convergence pass, no
extraction, no pagination, and the run falls through returning undefined. -/
theorem searchJobs_nonpositive_limit (loads : Nat → Bool × Nat)
    (extracts : Nat → List Nat) (st : ScraperState) (p : PageState)
    (kw loc : String) (limit : Int) (fuel : Nat)
    (hp : st.page = some p) (hlim : limit ≤ 0) (hfuel : 0 < fuel) :
    searchJobs true loads extracts st kw loc limit fuel =
      ([.navigate (searchUrl kw loc), .screenshot "Search jobs page"], .ok none) := by
  obtain ⟨f, rfl⟩ : ∃ f, fuel = f + 1 := ⟨fuel - 1, by omega⟩
  have h0 : ¬ ((0 : Int) < limit) := by omega
  simp [searchJobs, hp, searchLoop, h0]

/-- Witness for C10's theorem at the concrete limit 0. -/
theorem searchJobs_nonpositive_limit_witness :
    searchJobs true (fun _ => (true, 0)) (fun _ => [7])
        ⟨some ⟨"home", none⟩, 1⟩ "kw" "loc" 0 4 =
      ([.navigate (searchUrl "kw" "loc"), .screenshot "Search jobs page"], .ok none) :=
  searchJobs_nonpositive_limit (fun _ => (true, 0)) (fun _ => [7])
    ⟨some ⟨"home", none⟩, 1⟩ ⟨"home", none⟩ "kw" "loc" 0 4 rfl (by omega) (by omega)

/-- Helper: any normal completion of the quota loop yields either none
(fell out of the loop, i.e. undefined) or some [] (the early return after
a convergence pass reported failure), and some [] only when some loadJobs
call reported failure. -/
theorem searchLoop_ok_cases (loads : Nat → Bool × Nat)
    (extracts : Nat → List Nat) (shotOk : Bool) (limit : Int) :
    ∀ fuel processed i r,
      (searchLoop loads extracts shotOk limit fuel processed i).2 = .ok r →
      r = none ∨ (r = some [] ∧ ∃ j, (loads j).1 = false) := by
  intro fuel
  induction fuel with
  | zero =>
    intro processed i r h
    simp [searchLoop] at h
  | succ f ih =>
    intro processed i r h
    simp only [searchLoop] at h
    split at h
    · split at h
      · split at h
        · split at h
          · simp at h
            exact Or.inl h.symm
          · simp at h
        · exact ih _ _ _ (by simpa using h)
      · rename_i hload
        split at h
        · simp at h
          exact Or.inr ⟨h.symm, i, by simpa using hload⟩
        · simp at h
    · simp at h
      exact Or.inl h.symm

/-- C2 (counterexample): an initialized session, every convergence pass
succeeding, one extraction cycle yielding the nonempty batch [42] and
reaching the limit — the run completes normally, yet searchJobs returns
none (JS undefined), not the sequence [42] of extracted records the claim
promises. -/
theorem searchJobs_returns_no_records_counterexample :
    (searchJobs true (fun _ => (true, 7)) (fun _ => [42])
        ⟨some ⟨"home", none⟩, 1⟩ "kw" "loc" 1 1).2 = .ok none ∧
    (Except.ok (some [42]) : Except ScrapeError (Option (List Nat))) ≠
      .ok none := by
  exact ⟨rfl, by simp⟩

/-- C2 (amended): searchJobs never returns the extracted records — any
normal completion returns either undefined (none: the loop ended, records
were only counted against the quota) or the empty sequence, and the empty
sequence occurs only when some convergence pass reported failure. -/
theorem searchJobs_return_value_amended (shotOk : Bool)
    (loads : Nat → Bool × Nat) (extracts : Nat → List Nat)
    (st : ScraperState) (kw loc : String) (limit : Int) (fuel : Nat)
    (r : Option (List Nat))
    (h : (searchJobs shotOk loads extracts st kw loc limit fuel).2 = .ok r) :
    r = none ∨ (r = some [] ∧ ∃ j, (loads j).1 = false) := by
  unfold searchJobs at h
  rcases hp : st.page with _ | p
  · rw [hp] at h
    simp at h
  · rw [hp] at h
    by_cases h4 : shotOk
    · simp only [if_pos h4] at h
      exact searchLoop_ok_cases loads extracts shotOk limit fuel 0 0 r h
    · simp [h4] at h

/-- Witness for C2's amended theorem: a failed first convergence pass
gives the empty-sequence return. -/
theorem searchJobs_return_value_amended_witness :
    (some [] : Option (List Nat)) = none ∨
    ((some [] : Option (List Nat)) = some [] ∧
      ∃ j, (((fun _ => (false, 0)) : Nat → Bool × Nat) j).1 = false) :=
  searchJobs_return_value_amended true (fun _ => (false, 0)) (fun _ => [])
    ⟨some ⟨"home", none⟩, 1⟩ "kw" "loc" 25 2 (some []) rfl

/-- Helper: with enough fuel, the convergence loop started at poll index i
returns the count at the first stabilization point after i. -/
theorem loadLoop_eq_of_first_stable (counts : Nat → Nat) :
    ∀ N fuel i, N < fuel →
      (∀ j, j < N → counts (i + j + 1) ≠ counts (i + j)) →
      counts (i + N + 1) = counts (i + N) →
      loadLoop counts fuel i = some (counts (i + N)) := by
  intro N
  induction N with
  | zero =>
    intro fuel i hf _ hstab
    obtain ⟨f, rfl⟩ : ∃ f, fuel = f + 1 := ⟨fuel - 1, by omega⟩
    have h0 : counts (i + 1) = counts i := by simpa using hstab
    simp [loadLoop, h0]
  | succ N ih =>
    intro fuel i hf hne hstab
    obtain ⟨f, rfl⟩ : ∃ f, fuel = f + 1 := ⟨fuel - 1, by omega⟩
    have h0 : counts (i + 1) ≠ counts i := by
      simpa using hne 0 (Nat.succ_pos N)
    have hrec : loadLoop counts f (i + 1) = some (counts ((i + 1) + N)) := by
      refine ih f (i + 1) (by omega) ?_ ?_
      · intro j hj
        have := hne (j + 1) (by omega)
        simpa [show i + (j + 1) + 1 = (i + 1) + j + 1 by omega,
          show i + (j + 1) = (i + 1) + j by omega] using this
      · simpa [show i + (N + 1) + 1 = (i + 1) + N + 1 by omega,
          show i + (N + 1) = (i + 1) + N by omega] using hstab
    simp only [loadLoop, if_neg h0]
    simpa [show (i + 1) + N = i + (N + 1) by omega] using hrec

/-- Helper: whenever the convergence loop started at poll index i returns
a count, that count is the one at the first stabilization point after i —
in particular two consecutive polls agreed there and never before. -/
theorem loadLoop_some_inv (counts : Nat → Nat) :
    ∀ fuel i c, loadLoop counts fuel i = some c →
      ∃ N, (∀ j, j < N → counts (i + j + 1) ≠ counts (i + j)) ∧
        counts (i + N + 1) = counts (i + N) ∧ c = counts (i + N) := by
  intro fuel
  induction fuel with
  | zero =>
    intro i c h
    simp [loadLoop] at h
  | succ f ih =>
    intro i c h
    by_cases h0 : counts (i + 1) = counts i
    · simp [loadLoop, h0] at h
      exact ⟨0, fun j hj => absurd hj (by omega), by simpa using h0, by simp [h.symm]⟩
    · simp only [loadLoop, if_neg h0] at h
      obtain ⟨N, hne, hstab, hc⟩ := ih (i + 1) c h
      refine ⟨N + 1, ?_, ?_, ?_⟩
      · intro j hj
        match j with
        | 0 => simpa using h0
        | j' + 1 =>
          have := hne j' (by omega)
          simpa [show (i + 1) + j' + 1 = i + (j' + 1) + 1 by omega,
            show (i + 1) + j' = i + (j' + 1) by omega] using this
      · simpa [show (i + 1) + N + 1 = i + (N + 1) + 1 by omega,
          show (i + 1) + N = i + (N + 1) by omega] using hstab
      · simpa [show (i + 1) + N = i + (N + 1) by omega] using hc

/-- C5 (confirmed): the convergence loop exits exactly at the first poll
whose count equals the previous count, returning success = true and
totalJobs equal to that stabilized size; and whenever it returns at all,
the returned count sits at such a first stabilization point — it never
returns while two consecutive polls still differ. -/
theorem loadJobs_convergence_first_stable (counts : Nat → Nat) (fuel : Nat) :
    (∀ N, N < fuel → (∀ j, j < N → counts (j + 1) ≠ counts j) →
      counts (N + 1) = counts N →
      loadJobsAttempt counts fuel = some { success := true, totalJobs := counts N }) ∧
    (∀ r, loadJobsAttempt counts fuel = some r →
      r.success = true ∧ ∃ i, counts (i + 1) = counts i ∧
        (∀ j, j < i → counts (j + 1) ≠ counts j) ∧ r.totalJobs = counts i) := by
  constructor
  · intro N hN hne hstab
    have := loadLoop_eq_of_first_stable counts N fuel 0 hN
      (by simpa using hne) (by simpa using hstab)
    simp [loadJobsAttempt, this]
  · intro r h
    unfold loadJobsAttempt at h
    rcases hl : loadLoop counts fuel 0 with _ | c
    · rw [hl] at h
      simp at h
    · rw [hl] at h
      simp at h
      obtain ⟨N, hne, hstab, hc⟩ := loadLoop_some_inv counts fuel 0 c hl
      refine ⟨by simp [← h], N, by simpa using hstab, by simpa using hne, ?_⟩
      simp [← h]
      simpa using hc

/-- Witness for C5's theorem: polls 0,1,2,2,... stabilize first at index
2, and the loop returns exactly that count. -/
theorem loadJobs_convergence_first_stable_witness :
    loadJobsAttempt (fun i => min i 2) 5 = some { success := true, totalJobs := 2 } := by
  have h := (loadJobs_convergence_first_stable (fun i => min i 2) 5).1 2
    (by omega) (by intro j hj; interval_cases j <;> decide) (by decide)
  simpa using h

/-- Helper: the retry attempt loop succeeds with r iff some attempt a
below the attempt budget succeeds with r and every earlier attempt
failed. -/
theorem retryRun_eq_some {α : Type} (op : Nat → Option α) :
    ∀ n k r, retryRun op n k = some r ↔
      ∃ a, a < n ∧ op (k + a) = some r ∧ ∀ b, b < a → op (k + b) = none := by
  intro n
  induction n with
  | zero =>
    intro k r
    simp [retryRun]
  | succ n ih =>
    intro k r
    constructor
    · intro h
      simp only [retryRun] at h
      rcases hk : op k with _ | v
      · rw [hk] at h
        obtain ⟨a, ha, hsome, hnone⟩ := (ih (k + 1) r).mp h
        refine ⟨a + 1, by omega, by simpa [Nat.add_assoc, Nat.add_comm 1 a] using hsome, ?_⟩
        intro b hb
        match b with
        | 0 => simpa using hk
        | b' + 1 =>
          have := hnone b' (by omega)
          simpa [Nat.add_assoc, Nat.add_comm 1 b'] using this
      · rw [hk] at h
        simp at h
        exact ⟨0, by omega, by simpa [hk] using h, fun b hb => absurd hb (by omega)⟩
    · rintro ⟨a, ha, hsome, hnone⟩
      simp only [retryRun]
      match a with
      | 0 =>
        simp at hsome
        rw [hsome]
      | a' + 1 =>
        have hk : op k = none := by simpa using hnone 0 (by omega)
        rw [hk]
        refine (ih (k + 1) r).mpr ⟨a', by omega, ?_, ?_⟩
        · simpa [Nat.add_assoc, Nat.add_comm 1 a'] using hsome
        · intro b hb
          have := hnone (b + 1) (by omega)
          simpa [Nat.add_assoc, Nat.add_comm 1 b] using this

/-- C8 (confirmed): loadJobs is exactly the retry wrapper at the literal
configuration 3 attempts / 300ms delay / 30s timeout, and it succeeds
with r iff some attempt a among the first 3 succeeds with r after every
earlier attempt failed — where each attempt is the whole one-attempt
detection loadJobsAttempt run on that attempt's fresh poll sequence from
poll index 0, so nothing carries over from a failed attempt. -/
theorem loadJobs_retry_policy (counts : Nat → Nat → Nat) (fuel : Nat) :
    loadJobsRetryConfig = { maxAttempts := 3, delayMs := 300, timeout := 30000 } ∧
    ∀ r, loadJobs counts fuel = some r ↔
      ∃ a, a < 3 ∧ loadJobsAttempt (counts a) fuel = some r ∧
        ∀ b, b < a → loadJobsAttempt (counts b) fuel = none := by
  refine ⟨rfl, fun r => ?_⟩
  have h := retryRun_eq_some (fun a => loadJobsAttempt (counts a) fuel) 3 0 r
  simpa [loadJobs, retry, loadJobsRetryConfig] using h

/-- Witness for C8's theorem: the first attempt sees a strictly growing
poll sequence (never converges, i.e. fails), the second a constant one —
loadJobs returns the second attempt's result, recomputed from scratch. -/
theorem loadJobs_retry_policy_witness :
    loadJobs (fun a i => if a = 0 then i else 0) 5 =
      some { success := true, totalJobs := 0 } := by
  refine ((loadJobs_retry_policy (fun a i => if a = 0 then i else 0) 5).2
    { success := true, totalJobs := 0 }).mpr ⟨1, by omega, by decide, ?_⟩
  intro b hb
  have hb0 : b = 0 := by omega
  subst hb0
  decide

/-- C4 (confirmed): with limit 25 and every extraction yielding exactly
10 new records, an initialized searchJobs run performs exactly 3
convergence-and-extraction cycles and exactly 2 pagination advances:
after the third extraction the counter reaches 30 which meets the quota,
so the loop stops with the limit-reached capture instead of a further
pagination call. -/
theorem searchJobs_quota_three_cycles (loads : Nat → Bool × Nat)
    (extracts : Nat → List Nat) (st : ScraperState) (p : PageState)
    (kw loc : String) (fuel : Nat)
    (hp : st.page = some p)
    (hload : ∀ i, (loads i).1 = true)
    (hext : ∀ i, (extracts i).length = 10)
    (hfuel : 3 ≤ fuel) :
    searchJobs true loads extracts st kw loc 25 fuel =
      ([.navigate (searchUrl kw loc), .screenshot "Search jobs page",
        .loadJobs, .extract, .paginate,
        .loadJobs, .extract, .paginate,
        .loadJobs, .extract, .screenshot "Job limit reached"], .ok none) := by
  obtain ⟨f, rfl⟩ : ∃ f, fuel = f + 1 + 1 + 1 := ⟨fuel - 3, by omega⟩
  simp [searchJobs, hp, searchLoop, hload 0, hload 1, hload 2,
    hext 0, hext 1, hext 2]

/-- Witness for C4's theorem at concrete oracles yielding 10 records per
cycle. -/
theorem searchJobs_quota_three_cycles_witness :
    searchJobs true (fun _ => (true, 30))
        (fun _ => [0, 1, 2, 3, 4, 5, 6, 7, 8, 9])
        ⟨some ⟨"home", none⟩, 1⟩ "kw" "loc" 25 3 =
      ([.navigate (searchUrl "kw" "loc"), .screenshot "Search jobs page",
        .loadJobs, .extract, .paginate,
        .loadJobs, .extract, .paginate,
        .loadJobs, .extract, .screenshot "Job limit reached"], .ok none) :=
  searchJobs_quota_three_cycles (fun _ => (true, 30))
    (fun _ => [0, 1, 2, 3, 4, 5, 6, 7, 8, 9])
    ⟨some ⟨"home", none⟩, 1⟩ ⟨"home", none⟩ "kw" "loc" 3 rfl
    (fun _ => rfl) (fun _ => rfl) (by omega)

end LinkedInScraper
